import Mathlib

/-!
Shallow embedding of `src/sharepoint.py` (repository
Casssiee/Graph-API-SharePoint-List-): a Microsoft Graph / SharePoint client.

The Python module defines
  * `InvalidResponseCodeError`, a typed exception carrying a response code;
  * `Validator`, an abstract descriptor whose `__set__` first validates the
    incoming value and only then stores it on the descriptor object itself
    (`self.value = value`, `self` being the descriptor, not the owning
    instance);
  * `Response`, the concrete validator accepting status codes 200 and 201;
  * `MicrosoftGraph`, a dataclass whose class attribute `response` is a single
    `Response()` descriptor instance, with methods `_get_token`,
    `get_sharepoint_list_item_data` and `get_sharepoint_list`.

External effects (the MSAL identity provider and `requests.get`) are modelled
by an environment record supplying their outcomes; a Python exception is an
explicit `Except.error`, and the broad `except Exception` handler of the two
public methods is the explicit `runFetch` wrapper.  `print` output is
collected in an ordered list of `OutLine`s.
-/

set_option autoImplicit false

namespace SharePoint

/-- An HTTP response as the code observes it: `requests` response objects are
only ever inspected through `.status_code` (Python `int`) plus an opaque body. -/
structure HttpResponse where
  status_code : Int
  body : String
deriving DecidableEq, Repr

/-- Python exceptions relevant to this module: the module's own
`InvalidResponseCodeError(response_code, failure)` (whose message is
`f'Invalid response code: {response_code}!'`), and any other exception
raised by the MSAL library or by `requests.get`, abstracted to its message. -/
inductive PyExn where
  | invalidResponseCode (response_code : Int)
  | other (msg : String)
deriving DecidableEq, Repr

/-- The string Python produces for an exception when it is interpolated into
the error log line (`str(e)`). -/
def pyMsg : PyExn → String
  | .invalidResponseCode c => "Invalid response code: " ++ toString c ++ "!"
  | .other m => m

/-- Source: `Response.valid_response = (requests.codes.ok, 201)`; `requests.codes.ok`
is the integer 200. -/
def Response.valid_response : List Int := [200, 201]

/-- Method `Response.validate`: raises `InvalidResponseCodeError` unless the status
code is one of the valid codes. -/
def Response.validate (response : HttpResponse) : Except PyExn Unit :=
  if response.status_code ∈ Response.valid_response then Except.ok ()
  else Except.error (PyExn.invalidResponseCode response.status_code)

/-- Descriptor write `Validator.__set__` specialised to the `Response` validator: validate the
incoming value first, and only on success store it (`self.value = value`).
The stored cell is `Option` because before the first successful assignment the
descriptor has no `value` attribute at all.  On `Except.error` the write never
happens, so the caller keeps its previous cell. -/
def Response.set (_cell : Option HttpResponse) (value : HttpResponse) :
    Except PyExn (Option HttpResponse) :=
  match Response.validate value with
  | Except.error e => Except.error e
  | Except.ok _ => Except.ok (some value)

/-- The mutable state shared by every `MicrosoftGraph` instance.  The class
body evaluates `Response()` exactly once (the dataclass field default), so all
instances share the one descriptor object, and `Validator.__set__` writes to
that object (`self.value` with `self` the descriptor).  `respCell` is that
single descriptor's `value` slot. -/
structure World where
  respCell : Option HttpResponse
deriving DecidableEq, Repr

/-- The per-instance credential fields of the `MicrosoftGraph` dataclass (the
`app : msal.ClientApplication` collaborator is modelled by `MsalEnv` below). -/
structure MicrosoftGraph where
  client_id : String
  tenant_id : String
  client_credential : String
  username : String
  password : String
  scope : List String
deriving DecidableEq, Repr

/-- Reading `g.response`: the class attribute is a data descriptor, so
`Validator.__get__` runs and returns `self.value`, the descriptor's own slot.
The owning instance `_g` plays no role in the lookup, which is how the stored
response is shared between instances. -/
def MicrosoftGraph.readResponse (_g : MicrosoftGraph) (w : World) :
    Option HttpResponse :=
  w.respCell

/-- A Python dict of strings, as returned by the MSAL token calls. -/
abbrev Dict := List (String × String)

/-- Membership test `k in d` and lookup `d[k]` on a Python string dict. -/
def dictLookup (d : Dict) (k : String) : Option String :=
  (d.find? (fun kv => kv.fst == k)).map Prod.snd

/-- Outcomes of the three MSAL collaborator calls `_get_token` can make:
the cached accounts for the configured username, the result of
`acquire_token_silent` (Python `None` or a dict; `Except.error` for a raised
exception), and the result of `acquire_token_by_username_password`. -/
structure MsalEnv where
  accounts : List String
  silent : Except PyExn (Option Dict)
  byPassword : Except PyExn Dict
deriving Repr

/-- Python truthiness of the `result` variable at the `if not result:` check:
`None` and the empty dict are falsy. -/
def pyFalsy : Option Dict → Bool
  | none => true
  | some d => d.isEmpty

/-- One call made to the MSAL provider, with the arguments the code passes. -/
inductive ProviderCall where
  | get_accounts (username : String)
  | acquire_token_silent (scope : List String)
  | acquire_token_by_username_password (username password : String)
      (scope : List String)
deriving DecidableEq, Repr

/-- Method `MicrosoftGraph._get_token`: look up cached accounts for `self.username`;
if any exist, try `acquire_token_silent(self.scope, account=accounts[0])`;
if the result is falsy, fall back to
`acquire_token_by_username_password(self.username, self.password, scopes=self.scope)`;
finally return `result['access_token']` when present, else Python returns
`None` implicitly.  The second component records the provider calls made, in
order. -/
def MicrosoftGraph.get_token (g : MicrosoftGraph) (env : MsalEnv) :
    Except PyExn (Option String) × List ProviderCall :=
  if env.accounts.isEmpty then
    match env.byPassword with
    | Except.error e =>
        (Except.error e,
         [ProviderCall.get_accounts g.username,
          ProviderCall.acquire_token_by_username_password g.username g.password g.scope])
    | Except.ok d =>
        (Except.ok (dictLookup d "access_token"),
         [ProviderCall.get_accounts g.username,
          ProviderCall.acquire_token_by_username_password g.username g.password g.scope])
  else
    match env.silent with
    | Except.error e =>
        (Except.error e,
         [ProviderCall.get_accounts g.username,
          ProviderCall.acquire_token_silent g.scope])
    | Except.ok r =>
      if pyFalsy r then
        match env.byPassword with
        | Except.error e =>
            (Except.error e,
             [ProviderCall.get_accounts g.username,
              ProviderCall.acquire_token_silent g.scope,
              ProviderCall.acquire_token_by_username_password g.username g.password g.scope])
        | Except.ok d =>
            (Except.ok (dictLookup d "access_token"),
             [ProviderCall.get_accounts g.username,
              ProviderCall.acquire_token_silent g.scope,
              ProviderCall.acquire_token_by_username_password g.username g.password g.scope])
      else
        (Except.ok (dictLookup (r.getD []) "access_token"),
         [ProviderCall.get_accounts g.username,
          ProviderCall.acquire_token_silent g.scope])

/-- The f-string interpolation of `_get_token()`'s return value into
`f'Bearer {self._get_token()}'`: Python renders `None` as the four characters
`None`. -/
def pyOptStr : Option String → String
  | none => "None"
  | some s => s

/-- The URL built by `get_sharepoint_list_item_data` (source line 179),
character for character. -/
def itemDataUrl (tenant_name team_id list_id column value : String) : String :=
  "https://graph.microsoft.com/v1.0/sites/" ++ tenant_name ++
    ".sharepoint.com:/teams/" ++ team_id ++ ":/lists/" ++ list_id ++
    "/items?$expand=fields&$filter=fields/" ++ column ++ " eq '" ++ value ++ "'"

/-- The URL built by `get_sharepoint_list` (source line 212). -/
def listItemsUrl (tenant_name team_id list_id : String) : String :=
  "https://graph.microsoft.com/v1.0/sites/" ++ tenant_name ++
    ".sharepoint.com:/teams/" ++ team_id ++ ":/lists/" ++ list_id ++ "/items"

/-- The `$filter=` expression embedded in `itemDataUrl`. -/
def filterExprOf (column value : String) : String :=
  "fields/" ++ column ++ " eq '" ++ value ++ "'"

/-- Number of single-quote characters in a string. -/
def quoteCount (s : String) : Nat :=
  s.toList.count '\''

/-- Holds (as `true`) when the string contains no single-quote character. -/
def quoteFree (s : String) : Bool :=
  !(s.toList.contains '\'')

/-- A syntactically well-formed filter of the shape the code intends to
produce: `fields/<column> eq '<literal>'` where neither part smuggles in a
quote character, so the OData string literal is delimited by exactly the two
quotes written by the template. -/
def filterWellFormed (s : String) : Prop :=
  ∃ c v, quoteFree c = true ∧ quoteFree v = true ∧ s = filterExprOf c v

/-- A filter expression whose quote delimiters do not pair up as a single
two-quote string literal; any such expression is not `filterWellFormed`
(see `quoteCount_of_wellFormed`). -/
def filterMalformed (s : String) : Bool :=
  quoteCount s != 2

/-- The HTTP GET request as handed to `requests.get`: url, headers and the
`params` keyword argument. -/
structure HttpRequest where
  url : String
  headers : List (String × String)
  params : List (String × String)
deriving DecidableEq, Repr

/-- One line of `print` output: either a plain string, or the error log line
of the `except` handlers, which carries the timezone the code localises to
(`pytz.timezone('Australia/Sydney')`), the rendered current time, and the full
printed text. -/
inductive OutLine where
  | plain (s : String)
  | errorLog (tz time text : String)
deriving DecidableEq, Repr

/-- Environment of one fetch call: the MSAL outcomes, the outcome of the
single `requests.get` (a response, or a raised transport exception), and the
rendering of `datetime.now(timezone)` should the handler run. -/
structure FetchEnv where
  msal : MsalEnv
  http : Except PyExn HttpResponse
  now : String
deriving Repr

/-- State of the `try:` block when it finishes or raises: its outcome (the
method's return value, or the exception about to be caught), the descriptor
world, the `print` output so far, and the GET request if `requests.get` was
reached. -/
structure TryOutcome where
  outcome : Except PyExn (Option HttpResponse)
  world : World
  output : List OutLine
  sent : Option HttpRequest
deriving Repr

/-- What a public method call produces: its return value (`none` is Python's
implicit `None`), the final descriptor world, the complete `print` output and
the GET request if one was issued.  There is no exception component: the
method never raises. -/
structure FetchResult where
  result : Option HttpResponse
  world : World
  output : List OutLine
  sent : Option HttpRequest
deriving Repr

/-- The error log line printed by both `except Exception` handlers:
`f"SharePoint connection error at: {current_time} with error {e}"`. -/
def errorText (now : String) (e : PyExn) : String :=
  "SharePoint connection error at: " ++ now ++ " with error " ++ pyMsg e

/-- The `except Exception as e:` handler shared by both public methods: a
normal outcome is returned as is; a raised exception is swallowed into a
timestamped log line (timezone `Australia/Sydney`, time `now`) and the Python
method falls off the end, returning `None`. -/
def runFetch (t : TryOutcome) (now : String) : FetchResult :=
  match t.outcome with
  | Except.ok r => ⟨r, t.world, t.output, t.sent⟩
  | Except.error e =>
      ⟨none, t.world,
       t.output ++ [OutLine.errorLog "Australia/Sydney" now (errorText now e)],
       t.sent⟩

/-- The `try:` block of `get_sharepoint_list_item_data` (source lines
178-188): build the filtered URL, acquire a token (interpolated into the
`Authorization` header even when it is `None`), issue the GET with no
`params`, assign the response through the validating descriptor, and return
it only when its status code is 200 (otherwise fall through to `None`). -/
def get_sharepoint_list_item_data_try (g : MicrosoftGraph) (env : FetchEnv)
    (w : World) (tenant_name team_id list_id column value : String) :
    TryOutcome :=
  let url := itemDataUrl tenant_name team_id list_id column value
  match (g.get_token env.msal).fst with
  | Except.error e => ⟨Except.error e, w, [], none⟩
  | Except.ok tok =>
    let req : HttpRequest :=
      ⟨url, [("Authorization", "Bearer " ++ pyOptStr tok)], []⟩
    match env.http with
    | Except.error e => ⟨Except.error e, w, [], some req⟩
    | Except.ok resp =>
      match Response.set w.respCell resp with
      | Except.error e => ⟨Except.error e, w, [], some req⟩
      | Except.ok cell =>
        if resp.status_code = 200 then
          ⟨Except.ok (some resp), ⟨cell⟩, [], some req⟩
        else
          ⟨Except.ok none, ⟨cell⟩, [], some req⟩

/-- Method `MicrosoftGraph.get_sharepoint_list_item_data`: the `try:` block wrapped
in the broad exception handler. -/
def MicrosoftGraph.get_sharepoint_list_item_data (g : MicrosoftGraph)
    (env : FetchEnv) (w : World)
    (tenant_name team_id list_id column value : String) : FetchResult :=
  runFetch (get_sharepoint_list_item_data_try g env w tenant_name team_id
    list_id column value) env.now

/-- The `try:` block of `get_sharepoint_list` (source lines 211-221): build
the unfiltered URL, `print(url)`, acquire a token, issue the GET with
`params={'expand': 'False', 'top': '4999'}`, assign the response through the
validating descriptor, and return it only when its status code is 200. -/
def get_sharepoint_list_try (g : MicrosoftGraph) (env : FetchEnv) (w : World)
    (tenant_name team_id list_id : String) : TryOutcome :=
  let url := listItemsUrl tenant_name team_id list_id
  let out0 : List OutLine := [OutLine.plain url]
  match (g.get_token env.msal).fst with
  | Except.error e => ⟨Except.error e, w, out0, none⟩
  | Except.ok tok =>
    let req : HttpRequest :=
      ⟨url, [("Authorization", "Bearer " ++ pyOptStr tok)],
       [("expand", "False"), ("top", "4999")]⟩
    match env.http with
    | Except.error e => ⟨Except.error e, w, out0, some req⟩
    | Except.ok resp =>
      match Response.set w.respCell resp with
      | Except.error e => ⟨Except.error e, w, out0, some req⟩
      | Except.ok cell =>
        if resp.status_code = 200 then
          ⟨Except.ok (some resp), ⟨cell⟩, out0, some req⟩
        else
          ⟨Except.ok none, ⟨cell⟩, out0, some req⟩

/-- Method `MicrosoftGraph.get_sharepoint_list`: the `try:` block wrapped in the
broad exception handler. -/
def MicrosoftGraph.get_sharepoint_list (g : MicrosoftGraph) (env : FetchEnv)
    (w : World) (tenant_name team_id list_id : String) : FetchResult :=
  runFetch (get_sharepoint_list_try g env w tenant_name team_id list_id)
    env.now

/-- Holds (as `true`) when a raised exception would be caught inside the `try:` block of
either fetch method on this environment: token acquisition raises, the GET
raises, or the GET returns a response the `Response` validator rejects. -/
def raisesInternally (g : MicrosoftGraph) (env : FetchEnv) : Bool :=
  match (g.get_token env.msal).fst with
  | Except.error _ => true
  | Except.ok _ =>
    match env.http with
    | Except.error _ => true
    | Except.ok resp =>
        !(resp.status_code == 200 || resp.status_code == 201)

/-- Holds (as `true`) when the output contains the handlers' timestamped error line. -/
def hasTimestampedLog (out : List OutLine) : Bool :=
  out.any fun l =>
    match l with
    | OutLine.errorLog _ _ _ => true
    | OutLine.plain _ => false

/-- The request `get_sharepoint_list_item_data` hands to `requests.get`. -/
def itemReq (tok : Option String) (t te l c v : String) : HttpRequest :=
  ⟨itemDataUrl t te l c v, [("Authorization", "Bearer " ++ pyOptStr tok)], []⟩

/-- The request `get_sharepoint_list` hands to `requests.get`. -/
def listReq (tok : Option String) (t te l : String) : HttpRequest :=
  ⟨listItemsUrl t te l, [("Authorization", "Bearer " ++ pyOptStr tok)],
   [("expand", "False"), ("top", "4999")]⟩

/-- Concrete sample client for witnesses. -/
def sampleGraph : MicrosoftGraph :=
  ⟨"client-id", "tenant-id", "client-secret", "bot@example.edu.au", "pw",
   ["https://graph.microsoft.com/.default"]⟩

/-- MSAL environment: no cached account, password exchange yields a token. -/
def msalOk : MsalEnv :=
  ⟨[], Except.ok none, Except.ok [("access_token", "tok123")]⟩

/-- A response with the given status code. -/
def respOf (c : Int) : HttpResponse := ⟨c, "body"⟩

/-- A fetch environment around `msalOk` with the given GET outcome. -/
def envOf (h : Except PyExn HttpResponse) : FetchEnv :=
  ⟨msalOk, h, "2026-10-12 09:00:00+11:00"⟩

/-! ### Helper lemmas -/

theorem runFetch_sent (t : TryOutcome) (now : String) :
    (runFetch t now).sent = t.sent := by
  unfold runFetch; cases t.outcome <;> rfl

theorem runFetch_world (t : TryOutcome) (now : String) :
    (runFetch t now).world = t.world := by
  unfold runFetch; cases t.outcome <;> rfl

/-- Complete characterization of the `try:` block of
`get_sharepoint_list_item_data` once the token and GET outcomes are fixed. -/
theorem item_try_eq (g : MicrosoftGraph) (env : FetchEnv) (w : World)
    (t te l c v : String) :
    get_sharepoint_list_item_data_try g env w t te l c v =
      match (g.get_token env.msal).fst with
      | Except.error e => ⟨Except.error e, w, [], none⟩
      | Except.ok tok =>
        match env.http with
        | Except.error e => ⟨Except.error e, w, [], some (itemReq tok t te l c v)⟩
        | Except.ok resp =>
          if resp.status_code = 200 then
            ⟨Except.ok (some resp), ⟨some resp⟩, [], some (itemReq tok t te l c v)⟩
          else if resp.status_code = 201 then
            ⟨Except.ok none, ⟨some resp⟩, [], some (itemReq tok t te l c v)⟩
          else
            ⟨Except.error (PyExn.invalidResponseCode resp.status_code), w, [],
             some (itemReq tok t te l c v)⟩ := by
  unfold get_sharepoint_list_item_data_try itemReq
  rcases hfst : (g.get_token env.msal).fst with e | tok
  · rfl
  · rcases hhttp : env.http with e | resp
    · rfl
    · by_cases h200 : resp.status_code = 200
      · simp [Response.set, Response.validate, Response.valid_response, h200]
      · by_cases h201 : resp.status_code = 201 <;>
          simp [Response.set, Response.validate, Response.valid_response,
            h200, h201]

/-- Complete characterization of the `try:` block of `get_sharepoint_list`
once the token and GET outcomes are fixed. -/
theorem list_try_eq (g : MicrosoftGraph) (env : FetchEnv) (w : World)
    (t te l : String) :
    get_sharepoint_list_try g env w t te l =
      match (g.get_token env.msal).fst with
      | Except.error e =>
          ⟨Except.error e, w, [OutLine.plain (listItemsUrl t te l)], none⟩
      | Except.ok tok =>
        match env.http with
        | Except.error e =>
            ⟨Except.error e, w, [OutLine.plain (listItemsUrl t te l)],
             some (listReq tok t te l)⟩
        | Except.ok resp =>
          if resp.status_code = 200 then
            ⟨Except.ok (some resp), ⟨some resp⟩,
             [OutLine.plain (listItemsUrl t te l)], some (listReq tok t te l)⟩
          else if resp.status_code = 201 then
            ⟨Except.ok none, ⟨some resp⟩,
             [OutLine.plain (listItemsUrl t te l)], some (listReq tok t te l)⟩
          else
            ⟨Except.error (PyExn.invalidResponseCode resp.status_code), w,
             [OutLine.plain (listItemsUrl t te l)],
             some (listReq tok t te l)⟩ := by
  unfold get_sharepoint_list_try listReq
  rcases hfst : (g.get_token env.msal).fst with e | tok
  · rfl
  · rcases hhttp : env.http with e | resp
    · rfl
    · by_cases h200 : resp.status_code = 200
      · simp [Response.set, Response.validate, Response.valid_response, h200]
      · by_cases h201 : resp.status_code = 201 <;>
          simp [Response.set, Response.validate, Response.valid_response,
            h200, h201]

/-- A second concrete sample client, distinct from `sampleGraph`. -/
def sampleGraph2 : MicrosoftGraph :=
  ⟨"other-client", "other-tenant", "other-secret", "second@example.edu.au",
   "pw2", ["Sites.ReadWrite.All"]⟩

/-! ### Claims -/

/-- C1: each fetch method returns the HTTP response exactly when its status
code is 200; for any other status code (201, 400, 401, 403, 404, 429, 500,
...) the call returns `None`.  Stated for a call whose token acquisition did
not raise and whose GET returned `resp`. -/
theorem fetch_returns_iff_status_200 (g : MicrosoftGraph) (env : FetchEnv)
    (w : World) (t te l c v : String) (tok : Option String)
    (resp : HttpResponse)
    (htok : (g.get_token env.msal).fst = Except.ok tok)
    (hhttp : env.http = Except.ok resp) :
    (g.get_sharepoint_list_item_data env w t te l c v).result
        = (if resp.status_code = 200 then some resp else none)
    ∧ (g.get_sharepoint_list env w t te l).result
        = (if resp.status_code = 200 then some resp else none) := by
  constructor
  · unfold MicrosoftGraph.get_sharepoint_list_item_data
    rw [item_try_eq, htok, hhttp]
    by_cases h200 : resp.status_code = 200
    · simp [h200, runFetch]
    · by_cases h201 : resp.status_code = 201 <;> simp [h200, h201, runFetch]
  · unfold MicrosoftGraph.get_sharepoint_list
    rw [list_try_eq, htok, hhttp]
    by_cases h200 : resp.status_code = 200
    · simp [h200, runFetch]
    · by_cases h201 : resp.status_code = 201 <;> simp [h200, h201, runFetch]

theorem fetch_returns_iff_status_200_witness :
    (sampleGraph.get_sharepoint_list_item_data (envOf (Except.ok (respOf 200)))
        ⟨none⟩ "unisyd" "AIHub" "lid" "Title" "x").result
      = (if (respOf 200).status_code = 200 then some (respOf 200) else none) :=
  (fetch_returns_iff_status_200 sampleGraph (envOf (Except.ok (respOf 200)))
    ⟨none⟩ "unisyd" "AIHub" "lid" "Title" "x" (some "tok123") (respOf 200)
    rfl rfl).1

/-- C5: assignment through the `Response` descriptor succeeds exactly for
status codes 200 and 201; every other status code raises
`InvalidResponseCodeError` carrying the offending code. -/
theorem response_assignment_valid_codes (cell : Option HttpResponse)
    (resp : HttpResponse) :
    (resp.status_code = 200 ∨ resp.status_code = 201 →
        Response.set cell resp = Except.ok (some resp))
    ∧ (¬(resp.status_code = 200 ∨ resp.status_code = 201) →
        Response.set cell resp
          = Except.error (PyExn.invalidResponseCode resp.status_code)) := by
  constructor
  · intro h
    rcases h with h | h <;>
      simp [Response.set, Response.validate, Response.valid_response, h]
  · intro h
    simp [Response.set, Response.validate, Response.valid_response, h]

theorem response_assignment_valid_codes_witness :
    Response.set none (respOf 200) = Except.ok (some (respOf 200))
    ∧ Response.set none (respOf 404)
        = Except.error (PyExn.invalidResponseCode (respOf 404).status_code) :=
  ⟨(response_assignment_valid_codes none (respOf 200)).1 (Or.inl rfl),
   (response_assignment_valid_codes none (respOf 404)).2 (by decide)⟩

/-- C9: a rejected assignment (status code outside 200/201) leaves the
descriptor state unchanged: validation raises before the write, so the
response read afterwards is whatever was stored before the failed call. -/
theorem rejected_assignment_state_unchanged (g : MicrosoftGraph)
    (env : FetchEnv) (w : World) (t te l c v : String) (tok : Option String)
    (resp : HttpResponse)
    (htok : (g.get_token env.msal).fst = Except.ok tok)
    (hhttp : env.http = Except.ok resp)
    (hcode : ¬(resp.status_code = 200 ∨ resp.status_code = 201)) :
    g.readResponse (g.get_sharepoint_list_item_data env w t te l c v).world
        = g.readResponse w
    ∧ g.readResponse (g.get_sharepoint_list env w t te l).world
        = g.readResponse w := by
  have h200 : ¬ resp.status_code = 200 := fun h => hcode (Or.inl h)
  have h201 : ¬ resp.status_code = 201 := fun h => hcode (Or.inr h)
  constructor
  · unfold MicrosoftGraph.get_sharepoint_list_item_data
    rw [runFetch_world, item_try_eq, htok, hhttp]
    simp [h200, h201]
  · unfold MicrosoftGraph.get_sharepoint_list
    rw [runFetch_world, list_try_eq, htok, hhttp]
    simp [h200, h201]

theorem rejected_assignment_state_unchanged_witness :
    sampleGraph.readResponse
        (sampleGraph.get_sharepoint_list_item_data
          (envOf (Except.ok (respOf 404))) ⟨some (respOf 200)⟩
          "unisyd" "AIHub" "lid" "Title" "x").world
      = sampleGraph.readResponse ⟨some (respOf 200)⟩ :=
  (rejected_assignment_state_unchanged sampleGraph
    (envOf (Except.ok (respOf 404))) ⟨some (respOf 200)⟩
    "unisyd" "AIHub" "lid" "Title" "x" (some "tok123") (respOf 404)
    rfl rfl (by decide)).1

/-- C10: the backing store of `response` is the single class-level descriptor
object, not per-instance state: after a successful assignment through
instance `g1`, reading `response` through any other instance `g2` yields that
same stored response. -/
theorem response_backing_store_shared (g1 g2 : MicrosoftGraph)
    (env : FetchEnv) (w : World) (t te l c v : String) (tok : Option String)
    (resp : HttpResponse)
    (htok : (g1.get_token env.msal).fst = Except.ok tok)
    (hhttp : env.http = Except.ok resp)
    (hcode : resp.status_code = 200 ∨ resp.status_code = 201) :
    g2.readResponse (g1.get_sharepoint_list_item_data env w t te l c v).world
        = some resp
    ∧ g2.readResponse (g1.get_sharepoint_list_item_data env w t te l c v).world
        = g1.readResponse
            (g1.get_sharepoint_list_item_data env w t te l c v).world := by
  refine ⟨?_, rfl⟩
  unfold MicrosoftGraph.get_sharepoint_list_item_data
  rw [runFetch_world, item_try_eq, htok, hhttp]
  rcases hcode with h | h <;> simp [h, MicrosoftGraph.readResponse]

theorem response_backing_store_shared_witness :
    sampleGraph2.readResponse
        (sampleGraph.get_sharepoint_list_item_data
          (envOf (Except.ok (respOf 200))) ⟨none⟩
          "unisyd" "AIHub" "lid" "Title" "x").world
      = some (respOf 200) :=
  (response_backing_store_shared sampleGraph sampleGraph2
    (envOf (Except.ok (respOf 200))) ⟨none⟩
    "unisyd" "AIHub" "lid" "Title" "x" (some "tok123") (respOf 200)
    rfl rfl (Or.inl rfl)).1

theorem quoteCount_append (a b : String) :
    quoteCount (a ++ b) = quoteCount a + quoteCount b := by
  simp [quoteCount, String.toList, String.data_append, List.count_append]

theorem quoteCount_of_quoteFree (s : String) (h : quoteFree s = true) :
    quoteCount s = 0 := by
  have h' : '\'' ∉ s.toList := by simpa [quoteFree] using h
  simpa [quoteCount] using List.count_eq_zero.mpr h'

theorem quoteCount_filterExprOf (c v : String) :
    quoteCount (filterExprOf c v) = 2 + quoteCount c + quoteCount v := by
  have h1 : quoteCount "fields/" = 0 := by decide
  have h2 : quoteCount " eq '" = 1 := by decide
  have h3 : quoteCount "'" = 1 := by decide
  simp only [filterExprOf, quoteCount_append, h1, h2, h3]
  omega

theorem filterMalformed_of_wellFormed (s : String) (h : filterWellFormed s) :
    filterMalformed s = false := by
  obtain ⟨c, v, hc, hv, rfl⟩ := h
  simp [filterMalformed, quoteCount_filterExprOf,
    quoteCount_of_quoteFree c hc, quoteCount_of_quoteFree v hv]

/-- The filtered URL is the unfiltered URL's path followed by the query
string with the filter expression at its tail. -/
theorem itemDataUrl_split (t te l c v : String) :
    itemDataUrl t te l c v
      = listItemsUrl t te l ++ ("?$expand=fields&$filter=" ++ filterExprOf c v) := by
  have hsplit : ("/items?$expand=fields&$filter=fields/" : String)
      = "/items" ++ ("?$expand=fields&$filter=" ++ "fields/") := by decide
  apply String.ext
  simp [itemDataUrl, listItemsUrl, filterExprOf, hsplit, String.data_append,
    List.append_assoc]

/-- The GET request of `get_sharepoint_list`'s `try:` block, when one is
issued: token acquisition must not raise, and then the request is fixed. -/
theorem list_try_sent_eq (g : MicrosoftGraph) (env : FetchEnv) (w : World)
    (t te l : String) :
    (get_sharepoint_list_try g env w t te l).sent
      = match (g.get_token env.msal).fst with
        | Except.error _ => none
        | Except.ok tok => some (listReq tok t te l) := by
  rw [list_try_eq]
  rcases hfst : (g.get_token env.msal).fst with e | tok
  · rfl
  · rcases hhttp : env.http with e | resp
    · rfl
    · by_cases h200 : resp.status_code = 200
      · simp [h200]
      · by_cases h201 : resp.status_code = 201 <;> simp [h200, h201]

/-- The GET request of `get_sharepoint_list_item_data`'s `try:` block, when
one is issued. -/
theorem item_try_sent_eq (g : MicrosoftGraph) (env : FetchEnv) (w : World)
    (t te l c v : String) :
    (get_sharepoint_list_item_data_try g env w t te l c v).sent
      = match (g.get_token env.msal).fst with
        | Except.error _ => none
        | Except.ok tok => some (itemReq tok t te l c v) := by
  rw [item_try_eq]
  rcases hfst : (g.get_token env.msal).fst with e | tok
  · rfl
  · rcases hhttp : env.http with e | resp
    · rfl
    · by_cases h200 : resp.status_code = 200
      · simp [h200]
      · by_cases h201 : resp.status_code = 201 <;> simp [h200, h201]

/-- C2: the URL built by `get_sharepoint_list_item_data` contains the exact
substring `fields/<column> eq '<value>'` with the caller's value inserted
character for character and no escaping; consequently, for the value
`O'Brien` (which contains a single quote), the produced filter expression is
malformed, whereas every filter of the intended shape has exactly the two
delimiting quotes. -/
theorem filter_substring_unescaped :
    (∀ t te l c v, ∃ p, itemDataUrl t te l c v = p ++ filterExprOf c v)
    ∧ quoteFree "O'Brien" = false
    ∧ filterMalformed (filterExprOf "Title" "O'Brien") = true
    ∧ (∀ s, filterWellFormed s → filterMalformed s = false) := by
  refine ⟨?_, by decide, by decide, filterMalformed_of_wellFormed⟩
  intro t te l c v
  refine ⟨listItemsUrl t te l ++ "?$expand=fields&$filter=", ?_⟩
  rw [itemDataUrl_split, String.append_assoc]

theorem filter_substring_unescaped_witness :
    filterMalformed (filterExprOf "Title" "Smith") = false :=
  filter_substring_unescaped.2.2.2 (filterExprOf "Title" "Smith")
    ⟨"Title", "Smith", by decide, by decide, rfl⟩

/-- C3: with a cached account present for the configured username,
`_get_token` attempts silent acquisition with the configured scope before any
password exchange, and the password exchange is performed exactly when there
is no cached account or the silent attempt returned no (truthy) result. -/
theorem get_token_silent_before_password (g : MicrosoftGraph) (env : MsalEnv)
    (hacct : env.accounts ≠ []) :
    ((g.get_token env).snd
        = [ProviderCall.get_accounts g.username,
           ProviderCall.acquire_token_silent g.scope]
      ∨ (g.get_token env).snd
        = [ProviderCall.get_accounts g.username,
           ProviderCall.acquire_token_silent g.scope,
           ProviderCall.acquire_token_by_username_password g.username
             g.password g.scope])
    ∧ (ProviderCall.acquire_token_by_username_password g.username g.password
          g.scope ∈ (g.get_token env).snd
        ↔ (env.accounts = []
            ∨ ∃ r, env.silent = Except.ok r ∧ pyFalsy r = true)) := by
  have hne : env.accounts.isEmpty = false := by
    simpa [List.isEmpty_iff] using hacct
  unfold MicrosoftGraph.get_token
  rcases hs : env.silent with e | r
  · simp [hne, hacct]
  · by_cases hf : pyFalsy r
    · rcases hp : env.byPassword with e | d <;> simp [hne, hacct, hf]
    · simp [hne, hacct, hf]

theorem get_token_silent_before_password_witness :
    (sampleGraph.get_token
        ⟨["cached-account"], Except.ok (some [("access_token", "tokS")]),
         Except.ok [("access_token", "tokP")]⟩).snd
      = [ProviderCall.get_accounts sampleGraph.username,
         ProviderCall.acquire_token_silent sampleGraph.scope]
    ∨ (sampleGraph.get_token
        ⟨["cached-account"], Except.ok (some [("access_token", "tokS")]),
         Except.ok [("access_token", "tokP")]⟩).snd
      = [ProviderCall.get_accounts sampleGraph.username,
         ProviderCall.acquire_token_silent sampleGraph.scope,
         ProviderCall.acquire_token_by_username_password sampleGraph.username
           sampleGraph.password sampleGraph.scope] :=
  (get_token_silent_before_password sampleGraph
    ⟨["cached-account"], Except.ok (some [("access_token", "tokS")]),
     Except.ok [("access_token", "tokP")]⟩ (by decide)).1

/-- C7: for the scenario call the constructed URL is exactly the documented
one; in general the unfiltered variant requests the same path as the filtered
variant's URL with query parameters expand=False and top=4999 and no filter,
while the filtered variant carries no `params`. -/
theorem list_request_url_and_params (g : MicrosoftGraph) (env : FetchEnv)
    (w : World) (t te l c v : String) (req req2 : HttpRequest)
    (hsent : (g.get_sharepoint_list env w t te l).sent = some req)
    (hsent2 : (g.get_sharepoint_list_item_data env w t te l c v).sent
        = some req2) :
    listItemsUrl "unisyd" "AIHub" "c0135071-12ff-4186-b9f8-d3939d7c54a4"
        = "https://graph.microsoft.com/v1.0/sites/unisyd.sharepoint.com:/teams/AIHub:/lists/c0135071-12ff-4186-b9f8-d3939d7c54a4/items"
    ∧ req.url = listItemsUrl t te l
    ∧ req.params = [("expand", "False"), ("top", "4999")]
    ∧ req2.url = listItemsUrl t te l ++ ("?$expand=fields&$filter="
        ++ filterExprOf c v)
    ∧ req2.params = [] := by
  unfold MicrosoftGraph.get_sharepoint_list at hsent
  rw [runFetch_sent, list_try_sent_eq] at hsent
  unfold MicrosoftGraph.get_sharepoint_list_item_data at hsent2
  rw [runFetch_sent, item_try_sent_eq] at hsent2
  rcases hfst : (g.get_token env.msal).fst with e | tok <;>
    rw [hfst] at hsent hsent2
  · simp at hsent
  · simp only [Option.some.injEq] at hsent hsent2
    subst hsent hsent2
    exact ⟨by decide, rfl, rfl, (itemDataUrl_split t te l c v).symm ▸ rfl, rfl⟩

theorem list_request_url_and_params_witness :
    (listReq (some "tok123") "unisyd" "AIHub" "lid").params
      = [("expand", "False"), ("top", "4999")] :=
  (list_request_url_and_params sampleGraph (envOf (Except.ok (respOf 200)))
    ⟨none⟩ "unisyd" "AIHub" "lid" "Title" "x"
    (listReq (some "tok123") "unisyd" "AIHub" "lid")
    (itemReq (some "tok123") "unisyd" "AIHub" "lid" "Title" "x") rfl rfl).2.2.1

/-- Full behavior of `get_sharepoint_list_item_data`, by cases on the token
and GET outcomes. -/
theorem item_method_eq (g : MicrosoftGraph) (env : FetchEnv) (w : World)
    (t te l c v : String) :
    g.get_sharepoint_list_item_data env w t te l c v =
      match (g.get_token env.msal).fst with
      | Except.error e =>
          ⟨none, w,
           [OutLine.errorLog "Australia/Sydney" env.now (errorText env.now e)],
           none⟩
      | Except.ok tok =>
        match env.http with
        | Except.error e =>
            ⟨none, w,
             [OutLine.errorLog "Australia/Sydney" env.now (errorText env.now e)],
             some (itemReq tok t te l c v)⟩
        | Except.ok resp =>
          if resp.status_code = 200 then
            ⟨some resp, ⟨some resp⟩, [], some (itemReq tok t te l c v)⟩
          else if resp.status_code = 201 then
            ⟨none, ⟨some resp⟩, [], some (itemReq tok t te l c v)⟩
          else
            ⟨none, w,
             [OutLine.errorLog "Australia/Sydney" env.now (errorText env.now
               (PyExn.invalidResponseCode resp.status_code))],
             some (itemReq tok t te l c v)⟩ := by
  unfold MicrosoftGraph.get_sharepoint_list_item_data
  rw [item_try_eq]
  rcases hfst : (g.get_token env.msal).fst with e | tok
  · rfl
  · rcases hhttp : env.http with e | resp
    · rfl
    · by_cases h200 : resp.status_code = 200
      · simp [h200, runFetch]
      · by_cases h201 : resp.status_code = 201 <;> simp [h200, h201, runFetch]

/-- Full behavior of `get_sharepoint_list`, by cases on the token and GET
outcomes. -/
theorem list_method_eq (g : MicrosoftGraph) (env : FetchEnv) (w : World)
    (t te l : String) :
    g.get_sharepoint_list env w t te l =
      match (g.get_token env.msal).fst with
      | Except.error e =>
          ⟨none, w,
           [OutLine.plain (listItemsUrl t te l),
            OutLine.errorLog "Australia/Sydney" env.now (errorText env.now e)],
           none⟩
      | Except.ok tok =>
        match env.http with
        | Except.error e =>
            ⟨none, w,
             [OutLine.plain (listItemsUrl t te l),
              OutLine.errorLog "Australia/Sydney" env.now (errorText env.now e)],
             some (listReq tok t te l)⟩
        | Except.ok resp =>
          if resp.status_code = 200 then
            ⟨some resp, ⟨some resp⟩, [OutLine.plain (listItemsUrl t te l)],
             some (listReq tok t te l)⟩
          else if resp.status_code = 201 then
            ⟨none, ⟨some resp⟩, [OutLine.plain (listItemsUrl t te l)],
             some (listReq tok t te l)⟩
          else
            ⟨none, w,
             [OutLine.plain (listItemsUrl t te l),
              OutLine.errorLog "Australia/Sydney" env.now (errorText env.now
                (PyExn.invalidResponseCode resp.status_code))],
             some (listReq tok t te l)⟩ := by
  unfold MicrosoftGraph.get_sharepoint_list
  rw [list_try_eq]
  rcases hfst : (g.get_token env.msal).fst with e | tok
  · rfl
  · rcases hhttp : env.http with e | resp
    · rfl
    · by_cases h200 : resp.status_code = 200
      · simp [h200, runFetch]
      · by_cases h201 : resp.status_code = 201 <;> simp [h200, h201, runFetch]

/-- C4, counterexample: a GET that returns status code 201 (with token
acquisition succeeding) makes the call return `None` while printing no
timestamped log line at all — a non-200 outcome that is absent without a log
line, contradicting the claim. -/
theorem absent_without_log_at_201 :
    (sampleGraph.get_sharepoint_list_item_data (envOf (Except.ok (respOf 201)))
        ⟨none⟩ "unisyd" "AIHub" "lid" "Title" "x").result = none
    ∧ hasTimestampedLog
        (sampleGraph.get_sharepoint_list_item_data
          (envOf (Except.ok (respOf 201)))
          ⟨none⟩ "unisyd" "AIHub" "lid" "Title" "x").output = false
    ∧ hasTimestampedLog
        (sampleGraph.get_sharepoint_list (envOf (Except.ok (respOf 201)))
          ⟨none⟩ "unisyd" "AIHub" "lid").output = false :=
  ⟨rfl, rfl, rfl⟩

/-- C4 (amended): every outcome that raises inside the `try:` block — an
exception during token acquisition or the request, or a status code outside
200 and 201 — prints a log line timestamped in the organization's local
timezone (Australia/Sydney) and returns `None`; a 201 response, however,
also yields `None` but without any timestamped log line. -/
theorem non_200_logged_except_201 (g : MicrosoftGraph) (env : FetchEnv)
    (w : World) (t te l c v : String) :
    (raisesInternally g env = true →
      (g.get_sharepoint_list_item_data env w t te l c v).result = none
      ∧ (∃ x, OutLine.errorLog "Australia/Sydney" env.now x
          ∈ (g.get_sharepoint_list_item_data env w t te l c v).output)
      ∧ (g.get_sharepoint_list env w t te l).result = none
      ∧ (∃ x, OutLine.errorLog "Australia/Sydney" env.now x
          ∈ (g.get_sharepoint_list env w t te l).output))
    ∧ (∀ resp, env.http = Except.ok resp → resp.status_code = 201 →
        raisesInternally g env = false →
        (g.get_sharepoint_list_item_data env w t te l c v).result = none
        ∧ hasTimestampedLog
            (g.get_sharepoint_list_item_data env w t te l c v).output = false
        ∧ (g.get_sharepoint_list env w t te l).result = none
        ∧ hasTimestampedLog
            (g.get_sharepoint_list env w t te l).output = false) := by
  constructor
  · intro hraise
    unfold raisesInternally at hraise
    rw [item_method_eq, list_method_eq]
    rcases hfst : (g.get_token env.msal).fst with e | tok <;>
      simp only [hfst] at hraise ⊢
    · exact ⟨by simp, ⟨errorText env.now e, by simp⟩, by simp,
        ⟨errorText env.now e, by simp⟩⟩
    · rcases hhttp : env.http with e | resp <;>
        simp only [hhttp] at hraise ⊢
      · exact ⟨by simp, ⟨errorText env.now e, by simp⟩, by simp,
          ⟨errorText env.now e, by simp⟩⟩
      · obtain ⟨h200, h201⟩ :
            ¬ resp.status_code = 200 ∧ ¬ resp.status_code = 201 := by
          simpa using hraise
        simp only [if_neg h200, if_neg h201]
        exact ⟨by simp,
          ⟨errorText env.now (PyExn.invalidResponseCode resp.status_code),
            by simp⟩, by simp,
          ⟨errorText env.now (PyExn.invalidResponseCode resp.status_code),
            by simp⟩⟩
  · intro resp hhttp h201 hok
    unfold raisesInternally at hok
    rw [item_method_eq, list_method_eq]
    rcases hfst : (g.get_token env.msal).fst with e | tok <;>
      simp only [hfst] at hok ⊢
    · simp at hok
    · simp only [hhttp]
      have h200 : ¬ resp.status_code = 200 := by
        rw [h201]; decide
      simp [h200, h201, hasTimestampedLog]

theorem non_200_logged_except_201_witness :
    (sampleGraph.get_sharepoint_list (envOf (Except.ok (respOf 404)))
        ⟨none⟩ "unisyd" "AIHub" "lid").result = none :=
  ((non_200_logged_except_201 sampleGraph (envOf (Except.ok (respOf 404)))
    ⟨none⟩ "unisyd" "AIHub" "lid" "Title" "x").1 rfl).2.2.1

/-- C6: no internally raised exception propagates out of the public methods:
whenever the `try:` block of either method ends in a raised exception
(including `InvalidResponseCodeError` from the response assignment), the call
still terminates normally with result `None`. -/
theorem no_exception_propagates (g : MicrosoftGraph) (env : FetchEnv)
    (w : World) (t te l c v : String) (e e2 : PyExn)
    (h : (get_sharepoint_list_item_data_try g env w t te l c v).outcome
        = Except.error e)
    (h2 : (get_sharepoint_list_try g env w t te l).outcome
        = Except.error e2) :
    (g.get_sharepoint_list_item_data env w t te l c v).result = none
    ∧ (g.get_sharepoint_list env w t te l).result = none := by
  constructor
  · unfold MicrosoftGraph.get_sharepoint_list_item_data runFetch
    rw [h]
  · unfold MicrosoftGraph.get_sharepoint_list runFetch
    rw [h2]

theorem no_exception_propagates_witness :
    (sampleGraph.get_sharepoint_list_item_data
        (envOf (Except.error (PyExn.other "ConnectionError"))) ⟨none⟩
        "unisyd" "AIHub" "lid" "Title" "x").result = none :=
  (no_exception_propagates sampleGraph
    (envOf (Except.error (PyExn.other "ConnectionError"))) ⟨none⟩
    "unisyd" "AIHub" "lid" "Title" "x" (PyExn.other "ConnectionError")
    (PyExn.other "ConnectionError") rfl rfl).1

/-- C8: when `_get_token` returns `None` (the provider result had no
`access_token` field), both fetch methods still issue the GET with an
Authorization header equal to the literal `Bearer None`, and a resulting
non-200 status (e.g. 401) yields an absent final result. -/
theorem bearer_none_header (g : MicrosoftGraph) (env : FetchEnv) (w : World)
    (t te l c v : String)
    (htok : (g.get_token env.msal).fst = Except.ok none) :
    (g.get_sharepoint_list_item_data env w t te l c v).sent
        = some ⟨itemDataUrl t te l c v, [("Authorization", "Bearer None")], []⟩
    ∧ (g.get_sharepoint_list env w t te l).sent
        = some ⟨listItemsUrl t te l, [("Authorization", "Bearer None")],
            [("expand", "False"), ("top", "4999")]⟩
    ∧ (∀ resp, env.http = Except.ok resp → resp.status_code ≠ 200 →
        (g.get_sharepoint_list_item_data env w t te l c v).result = none
        ∧ (g.get_sharepoint_list env w t te l).result = none) := by
  have hb : ("Bearer " ++ pyOptStr none : String) = "Bearer None" := by decide
  refine ⟨?_, ?_, ?_⟩
  · unfold MicrosoftGraph.get_sharepoint_list_item_data
    rw [runFetch_sent, item_try_sent_eq, htok]
    simp [itemReq, hb]
  · unfold MicrosoftGraph.get_sharepoint_list
    rw [runFetch_sent, list_try_sent_eq, htok]
    simp [listReq, hb]
  · intro resp hhttp h200
    rw [item_method_eq, list_method_eq, htok, hhttp]
    by_cases h201 : resp.status_code = 201 <;> simp [h200, h201]

theorem bearer_none_header_witness :
    (sampleGraph.get_sharepoint_list_item_data
        ⟨⟨[], Except.ok none, Except.ok [("error", "invalid_grant")]⟩,
         Except.ok (respOf 401), "2026-10-12 09:00:00+11:00"⟩ ⟨none⟩
        "unisyd" "AIHub" "lid" "Title" "x").sent
      = some ⟨itemDataUrl "unisyd" "AIHub" "lid" "Title" "x",
          [("Authorization", "Bearer None")], []⟩ :=
  (bearer_none_header sampleGraph
    ⟨⟨[], Except.ok none, Except.ok [("error", "invalid_grant")]⟩,
     Except.ok (respOf 401), "2026-10-12 09:00:00+11:00"⟩ ⟨none⟩
    "unisyd" "AIHub" "lid" "Title" "x" rfl).1

end SharePoint
